import Mathlib

/-!
Shallow embedding of the schema resolution-and-caching pipeline of the
`rudder` repository (src/src-tauri/src): the SQLite-backed schema cache
(`db/schemas.rs`), repository discovery (`schema/utils.rs`), the
multi-repository search loop (`schema/search.rs`), schema synthesis from
deployed Helm values (`schema/helm_values.rs`), and the orchestrator
(`schema/main.rs`, `schema/get_schema_for_chart.mod.rs`).

External effects (the `helm` CLI, the SQLite connection) are modelled as
explicit inputs: each external command's outcome is a value of an outcome
type, and the database is an explicit state threaded through the functions.
JSON values (`serde_json::Value`) are modelled by `Rudder.Json`; JSON
objects are key-sorted association lists, mirroring `serde_json::Map`
(a `BTreeMap<String, Value>`, whose equality and serialization are
key-order canonical). JSON numbers are modelled as integers only: no claim
involves a non-integral number, and floating point is outside the embedding.
-/

namespace Rudder

/-- Model of `serde_json::Value`. Objects carry their fields as an
association list which the smart constructor `mkObj` keeps sorted by key,
matching the canonical form of `serde_json::Map` (`BTreeMap`). -/
inductive Json where
  | null : Json
  | bool (b : Bool) : Json
  | num (n : Int) : Json
  | str (s : String) : Json
  | arr (items : List Json) : Json
  | obj (fields : List (String × Json)) : Json

/-!
Decidable equality for `Json`, written by hand since `deriving` does not
support the nested occurrence of `Json` under `List`. Constructor-wise
comparison, mirroring the derived equality of `serde_json::Value` (object
equality is equality of the canonical key-sorted field lists).
-/

mutual

def Json.decEq : (a b : Json) → Decidable (a = b)
  | .null, .null => isTrue rfl
  | .bool a, .bool b =>
      match Bool.decEq a b with
      | isTrue h => isTrue (by rw [h])
      | isFalse h => isFalse (fun hh => by cases hh; exact h rfl)
  | .num a, .num b =>
      match Int.decEq a b with
      | isTrue h => isTrue (by rw [h])
      | isFalse h => isFalse (fun hh => by cases hh; exact h rfl)
  | .str a, .str b =>
      match String.decEq a b with
      | isTrue h => isTrue (by rw [h])
      | isFalse h => isFalse (fun hh => by cases hh; exact h rfl)
  | .arr a, .arr b =>
      match Json.decEqList a b with
      | isTrue h => isTrue (by rw [h])
      | isFalse h => isFalse (fun hh => by cases hh; exact h rfl)
  | .obj a, .obj b =>
      match Json.decEqFields a b with
      | isTrue h => isTrue (by rw [h])
      | isFalse h => isFalse (fun hh => by cases hh; exact h rfl)
  | .null, .bool _ => isFalse (fun h => by cases h)
  | .null, .num _ => isFalse (fun h => by cases h)
  | .null, .str _ => isFalse (fun h => by cases h)
  | .null, .arr _ => isFalse (fun h => by cases h)
  | .null, .obj _ => isFalse (fun h => by cases h)
  | .bool _, .null => isFalse (fun h => by cases h)
  | .bool _, .num _ => isFalse (fun h => by cases h)
  | .bool _, .str _ => isFalse (fun h => by cases h)
  | .bool _, .arr _ => isFalse (fun h => by cases h)
  | .bool _, .obj _ => isFalse (fun h => by cases h)
  | .num _, .null => isFalse (fun h => by cases h)
  | .num _, .bool _ => isFalse (fun h => by cases h)
  | .num _, .str _ => isFalse (fun h => by cases h)
  | .num _, .arr _ => isFalse (fun h => by cases h)
  | .num _, .obj _ => isFalse (fun h => by cases h)
  | .str _, .null => isFalse (fun h => by cases h)
  | .str _, .bool _ => isFalse (fun h => by cases h)
  | .str _, .num _ => isFalse (fun h => by cases h)
  | .str _, .arr _ => isFalse (fun h => by cases h)
  | .str _, .obj _ => isFalse (fun h => by cases h)
  | .arr _, .null => isFalse (fun h => by cases h)
  | .arr _, .bool _ => isFalse (fun h => by cases h)
  | .arr _, .num _ => isFalse (fun h => by cases h)
  | .arr _, .str _ => isFalse (fun h => by cases h)
  | .arr _, .obj _ => isFalse (fun h => by cases h)
  | .obj _, .null => isFalse (fun h => by cases h)
  | .obj _, .bool _ => isFalse (fun h => by cases h)
  | .obj _, .num _ => isFalse (fun h => by cases h)
  | .obj _, .str _ => isFalse (fun h => by cases h)
  | .obj _, .arr _ => isFalse (fun h => by cases h)

def Json.decEqList : (a b : List Json) → Decidable (a = b)
  | [], [] => isTrue rfl
  | [], _ :: _ => isFalse (fun h => by cases h)
  | _ :: _, [] => isFalse (fun h => by cases h)
  | x :: xs, y :: ys =>
      match Json.decEq x y, Json.decEqList xs ys with
      | isTrue h1, isTrue h2 => isTrue (by rw [h1, h2])
      | isFalse h1, _ => isFalse (fun h => by cases h; exact h1 rfl)
      | _, isFalse h2 => isFalse (fun h => by cases h; exact h2 rfl)

def Json.decEqFields : (a b : List (String × Json)) → Decidable (a = b)
  | [], [] => isTrue rfl
  | [], _ :: _ => isFalse (fun h => by cases h)
  | _ :: _, [] => isFalse (fun h => by cases h)
  | (k1, v1) :: xs, (k2, v2) :: ys =>
      match String.decEq k1 k2, Json.decEq v1 v2, Json.decEqFields xs ys with
      | isTrue hk, isTrue hv, isTrue ht => isTrue (by rw [hk, hv, ht])
      | isFalse hk, _, _ => isFalse (fun h => by cases h; exact hk rfl)
      | _, isFalse hv, _ => isFalse (fun h => by cases h; exact hv rfl)
      | _, _, isFalse ht => isFalse (fun h => by cases h; exact ht rfl)

end

instance : DecidableEq Json := Json.decEq

/-- Decidable equality for `Except`, used to evaluate concrete results. -/
instance {ε α : Type} [DecidableEq ε] [DecidableEq α] : DecidableEq (Except ε α)
  | .error a, .error b =>
      match decEq a b with
      | isTrue h => isTrue (by rw [h])
      | isFalse h => isFalse (fun hh => by cases hh; exact h rfl)
  | .ok a, .ok b =>
      match decEq a b with
      | isTrue h => isTrue (by rw [h])
      | isFalse h => isFalse (fun hh => by cases hh; exact h rfl)
  | .error _, .ok _ => isFalse (fun h => by cases h)
  | .ok _, .error _ => isFalse (fun h => by cases h)

/-- Lexicographic order on character lists. -/
def charListLt : List Char → List Char → Bool
  | [], [] => false
  | [], _ :: _ => true
  | _ :: _, [] => false
  | c :: cs, d :: ds => if c < d then true else if d < c then false else charListLt cs ds

/-- The string order of `BTreeMap<String, _>` keys: lexicographic byte
order, which for UTF-8 text coincides with lexicographic order of the
character (code point) lists. -/
def strLt (a b : String) : Bool := charListLt a.data b.data

/-- Insert a key/value pair into a key-sorted association list, replacing an
existing binding for the same key (the behaviour of `BTreeMap::insert`). -/
def insertField (k : String) (v : Json) : List (String × Json) → List (String × Json)
  | [] => [(k, v)]
  | (k', v') :: rest =>
      if strLt k k' then (k, v) :: (k', v') :: rest
      else if k = k' then (k, v) :: rest
      else (k', v') :: insertField k v rest

/-- Build a JSON object from a field list the way the `serde_json::json!`
macro builds a `Map`: inserting each field in turn into a `BTreeMap`, so the
result is sorted by key and a later duplicate key wins. -/
def mkObj (l : List (String × Json)) : Json :=
  .obj (l.foldl (fun acc kv => insertField kv.1 kv.2 acc) [])

/-- Model of `serde_json::Value::get(key)`: field lookup on objects, `None`
on every other value. -/
def Json.get : Json → String → Option Json
  | .obj fields, k => fields.lookup k
  | _, _ => none

/-- Model of `serde_json::Value::as_object()`. -/
def Json.asObject : Json → Option (List (String × Json))
  | .obj fields => some fields
  | _ => none

/-- Substring test, modelling Rust `str::contains(&str)`. -/
def strContainsSub (s pat : String) : Bool :=
  decide (pat.toList <:+: s.toList)

/-- Model of `is_network_error` (schema/utils.rs): an error message is
network-classified when it contains a timeout, network, or connection
substring. -/
def is_network_error (error_msg : String) : Bool :=
  strContainsSub error_msg "timeout" || strContainsSub error_msg "network" ||
    strContainsSub error_msg "connection"

/-- Model of `create_empty_schema` (schema/schema_utils.rs) and of the
`json!` literal inlined in `cache_and_return_empty_schema`
(get_schema_for_chart.mod.rs): the canonical empty schema
`{"properties": {}, "type": "object"}`. -/
def create_empty_schema : Json :=
  mkObj [("properties", .obj []), ("type", .str "object")]

/-!
### ValuesSchemaSynthesizer (schema/helm_values.rs)

`generate_schema_from_value` is translated as three mutually recursive
functions: the top-level dispatch on the value, the loop over an object's
fields (`for (key, val) in map`, which iterates a `BTreeMap` in key order
and inserts into a fresh map in that same order), and the per-field
`prop_schema` match. In the source the `Value::Object` arm of the
per-field match calls `generate_schema_from_value(val)` on the object
`val`; that call immediately takes the `Object` branch, so it is inlined
here as `.obj (genFields m)` (definitionally the same unfolding) to make
the recursion structural. JSON numbers are modelled as integers, so the
`as_i64().is_some()` test of the source is always true and only the
`"integer"` arm of the number case is reachable in the model.
-/

mutual

/-- Model of `generate_schema_from_value` (schema/helm_values.rs): objects
map to the object of their fields' property schemas; every non-object value
maps to `json!({})`, the empty object. -/
def generate_schema_from_value : Json → Json
  | .obj map => .obj (genFields map)
  | _ => .obj []

/-- The `for (key, val) in map` loop body of `generate_schema_from_value`:
each field's value is replaced by its property schema, keys kept in order. -/
def genFields : List (String × Json) → List (String × Json)
  | [] => []
  | (key, val) :: rest => (key, genProp val) :: genFields rest

/-- The `prop_schema` match of `generate_schema_from_value`: the schema
synthesized for one field's value. -/
def genProp : Json → Json
  | .str s => mkObj [("type", .str "string"), ("default", .str s)]
  | .num n => mkObj [("type", .str "integer"), ("default", .num n)]
  | .bool b => mkObj [("type", .str "boolean"), ("default", .bool b)]
  | .arr [] =>
      mkObj [("type", .str "array"), ("items", mkObj [("type", .str "string")]),
             ("default", .arr [])]
  | .arr (a :: rest) =>
      mkObj [("type", .str "array"), ("items", generate_schema_from_value a),
             ("default", .arr (a :: rest))]
  | .obj m =>
      mkObj [("type", .str "object"), ("properties", .obj (genFields m)),
             ("default", .obj m)]
  | .null => mkObj [("type", .str "string"), ("default", .null)]

end

/-- Outcome of the external `helm get values <release> -n <ns> -o json`
command consumed by `generate_schema_from_helm_values`. The stdout of a
successful run is modelled at parse granularity: `output none` is a stdout
that fails `serde_json::from_str`, `output (some v)` is a stdout that
parses to the JSON value `v`. -/
inductive HelmValuesOutcome where
  | execError (e : String)
  | cmdFailed (stderr : String)
  | output (parsed : Option Json)

/-- Model of `generate_schema_from_helm_values` (schema/helm_values.rs):
fails when the values query fails or its output is not valid JSON,
otherwise wraps the synthesized properties in
`{"type": "object", "properties": ...}`. -/
def generate_schema_from_helm_values (res : HelmValuesOutcome) : Except String Json :=
  match res with
  | .execError e => .error ("Failed to get helm values: " ++ e)
  | .cmdFailed stderr => .error ("Failed to get helm values: " ++ stderr)
  | .output none => .error "Failed to parse helm values"
  | .output (some values) =>
      .ok (mkObj [("type", .str "object"),
                  ("properties", generate_schema_from_value values)])

/-!
### SourceSearcher (schema/search.rs)

`try_repo_for_chart` runs two external commands (`helm search repo`, then
`helm pull` via `pull_chart_and_extract_schema`); its per-repository
outcome enters the fallback loop as a `Result<Value, String>`. The loop is
modelled over an oracle `try_repo : String → Except String Json` giving
each repository's outcome. The loop is instrumented to also return the
list of repositories actually attempted, in order, so that short-circuit
behaviour is statable; the plain result is its first component.
-/

/-- The `for current_repo in repos` loop of `try_all_repos_for_chart`
(schema/search.rs), carrying `last_error` and returning the result paired
with the repositories attempted. -/
def try_all_repos_go (try_repo : String → Except String Json) :
    List String → String → (Except String Json) × List String
  | [], last_error => (.error last_error, [])
  | current_repo :: rest, _last_error =>
      match try_repo current_repo with
      | .ok schema => (.ok schema, [current_repo])
      | .error e =>
          if is_network_error e then (.error e, [current_repo])
          else
            let r := try_all_repos_go try_repo rest e
            (r.1, current_repo :: r.2)

/-- Model of `try_all_repos_for_chart` (schema/search.rs): `last_error`
starts as the empty string. -/
def try_all_repos_for_chart (try_repo : String → Except String Json)
    (repos : List String) : Except String Json :=
  (try_all_repos_go try_repo repos "").1

/-- The repositories the loop of `try_all_repos_for_chart` actually
consulted, in order. -/
def try_all_repos_attempted (try_repo : String → Except String Json)
    (repos : List String) : List String :=
  (try_all_repos_go try_repo repos "").2

/-!
### SourceDiscovery (schema/utils.rs)
-/

/-- Outcome of an external command at the granularity `get_available_repos`
inspects it: failure to execute, or exit status plus stdout and stderr. -/
inductive CmdOutcome where
  | execError (e : String)
  | done (success : Bool) (stdout : String) (stderr : String)

/-- Newline splitting over the character list, modelling Rust
`str::lines()` as used on the stdout of `helm repo list` (a trailing empty
piece is skipped downstream by the blank-line check, as in the source). -/
def splitOnNl : List Char → List (List Char)
  | [] => [[]]
  | c :: cs =>
      match splitOnNl cs with
      | [] => [[]]
      | l :: ls => if c = '\n' then [] :: l :: ls else (c :: l) :: ls

/-- The first whitespace-separated token of a line, modelling
`line.split_whitespace().collect()[0]` guarded by `parts.len() >= 1`;
`none` exactly when the line is whitespace-only, which is also when the
source's `line.trim().is_empty()` guard skips the line. -/
def firstWord (l : List Char) : Option (List Char) :=
  let l' := l.dropWhile (fun c => c.isWhitespace)
  if l'.isEmpty then none else some (l'.takeWhile (fun c => !c.isWhitespace))

/-- Model of `get_available_repos` (schema/utils.rs): parse the output of
`helm repo list`, skipping the header line and blank lines, taking the
first whitespace-separated token of each remaining line as a repository
name; report whether the requested repository was seen. Any execution
failure or non-zero exit yields `([], false)`. Text is processed as its
character list. -/
def get_available_repos (repo_list_output : CmdOutcome)
    (requested_repo : String) : List String × Bool :=
  match repo_list_output with
  | .execError _ => ([], false)
  | .done success stdout _ =>
      if success then
        ((splitOnNl stdout.data).drop 1).foldl
          (fun (acc : List String × Bool) line =>
            match firstWord line with
            | none => acc
            | some w =>
                let repo_name_from_list := String.mk w
                (acc.1 ++ [repo_name_from_list],
                 acc.2 || (repo_name_from_list == requested_repo)))
          ([], false)
      else ([], false)

/-!
### SchemaStore (db/schemas.rs, db/connection.rs)

The `chart_schemas` table carries `schema_content` as TEXT: `put` stores
`serde_json::to_string(schema_content)` and `get` parses it back with
`serde_json::from_str`. The stored text is modelled at parse granularity:
`StoredContent.wellFormed doc` is a text produced by serializing `doc`
(which therefore parses back to `doc` — the serde round-trip contract of
the external library), and `StoredContent.corrupt` is a text that fails to
parse. Serializing a `serde_json::Value` cannot fail, and a write can fail
only at lock acquisition or at `conn.execute`; this injected persistence
failure of the shared connection is modelled by `DbState.dbError`, which
makes every store operation fail with that message, as a poisoned
`Arc<Mutex<Connection>>` does. The `created_at` column is filled by the
database with the current time, is used only for display ordering, and is
outside the embedding. -/
inductive StoredContent where
  | wellFormed (doc : Json)
  | corrupt
deriving DecidableEq

/-- One row of the `chart_schemas` table (db/connection.rs): the key triple,
the optional namespace, and the stored `schema_content` text. -/
structure Row where
  chart_name : String
  chart_version : String
  repo_name : String
  «namespace» : Option String
  schema_content : StoredContent
deriving DecidableEq

/-- The persistent store: the rows of `chart_schemas` in table order, plus
the injected failure of the shared connection, if any. -/
structure DbState where
  rows : List Row
  dbError : Option String
deriving DecidableEq

/-- Row matches the `WHERE chart_name = ?1 AND chart_version = ?2 AND
repo_name = ?3` condition used by `get`, `delete` and the
`UNIQUE(chart_name, chart_version, repo_name)` conflict test. -/
def keyMatches (r : Row) (chart_name chart_version repo_name : String) : Bool :=
  r.chart_name == chart_name && r.chart_version == chart_version &&
    r.repo_name == repo_name

/-- Model of `store_chart_schema` (db/schemas.rs): `INSERT OR REPLACE`
under the unique key index deletes any conflicting row and inserts the new
one, its `schema_content` the serialization of the given document. -/
def store_chart_schema (db : DbState) (chart_name chart_version repo_name : String)
    («namespace» : Option String) (schema_content : Json) : Except String DbState :=
  match db.dbError with
  | some e => .error e
  | none =>
      .ok { db with
        rows := db.rows.filter
            (fun r => !(keyMatches r chart_name chart_version repo_name)) ++
          [{ chart_name := chart_name, chart_version := chart_version,
             repo_name := repo_name, «namespace» := «namespace»,
             schema_content := .wellFormed schema_content }] }

/-- Model of the `ChartSchema` struct (db/schemas.rs) as produced by a
query row: `schema_content` holds the parsed document. -/
structure ChartSchema where
  chart_name : String
  chart_version : String
  repo_name : String
  «namespace» : Option String
  schema_content : Json
deriving DecidableEq

/-- The `query_map` row closure of `get_chart_schema`: a corrupt
`schema_content` text makes the row fail with the `InvalidColumnType`
error, which `collect::<Result<Vec<_>, _>>` surfaces. -/
def rowToChartSchema (r : Row) : Except String ChartSchema :=
  match r.schema_content with
  | .wellFormed doc =>
      .ok { chart_name := r.chart_name, chart_version := r.chart_version,
            repo_name := r.repo_name, «namespace» := r.«namespace»,
            schema_content := doc }
  | .corrupt => .error "Failed to collect results: Invalid column type"

/-- Model of `get_chart_schema` (db/schemas.rs): collect every matching
row, failing with a `StoreError` if any stored document is corrupt, then
return the first collected row, if any. -/
def get_chart_schema (db : DbState) (chart_name chart_version repo_name : String) :
    Except String (Option ChartSchema) :=
  match db.dbError with
  | some e => .error e
  | none =>
      match (db.rows.filter
          (fun r => keyMatches r chart_name chart_version repo_name)).mapM
          rowToChartSchema with
      | .error e => .error e
      | .ok schema_iter => .ok schema_iter.head?

/-!
### Orchestrator (schema/main.rs, schema/get_schema_for_chart.mod.rs)

The orchestrator's `Result<String, String>` carries the serialized schema
document on success; serialization (`serde_json::to_string(..).unwrap()`)
is the outer boundary and is injective, so the model returns the document
itself. The database handle mutated through the shared connection is
threaded explicitly: each function returns its result together with the
resulting store state.
-/

/-- Model of `check_cached_schema` (schema/get_schema_for_chart.mod.rs):
a store failure is discarded by `.ok()?` and treated as a miss; a cached
document whose `properties` is an empty object — or, lacking a
`properties` field, which is itself an empty object or not an object — is
treated as a miss; any other cached document is returned as a hit. The
source serializes the cached document and re-parses it before inspecting
it, which yields the document itself. -/
def check_cached_schema (db : DbState) (chart_name chart_version repo_name : String) :
    Option (Except String Json) :=
  match get_chart_schema db chart_name chart_version repo_name with
  | .error _ => none
  | .ok none => none
  | .ok (some cached_schema) =>
      let schema := cached_schema.schema_content
      match schema.get "properties" with
      | some properties =>
          match properties.asObject with
          | some obj => if obj.isEmpty then none else some (.ok schema)
          | none => some (.ok schema)
      | none =>
          match schema.asObject with
          | some obj => if obj.isEmpty then none else some (.ok schema)
          | none => none

/-- Model of `cache_and_return_empty_schema`
(schema/get_schema_for_chart.mod.rs): store the canonical empty schema
under the given key, propagating a store failure, and return the empty
schema. -/
def cache_and_return_empty_schema (db : DbState)
    (chart_name chart_version repo_name : String) («namespace» : Option String) :
    (Except String Json) × DbState :=
  match store_chart_schema db chart_name chart_version repo_name «namespace»
      create_empty_schema with
  | .error e => (.error e, db)
  | .ok db' => (.ok create_empty_schema, db')

/-- The external collaborators of one `get_schema_for_chart` invocation,
plus the initial store state: the outcome of `helm repo list`, the
per-repository outcome of `try_repo_for_chart` (`helm search repo` then
`helm pull`), and the outcome of `helm get values` for a release name and
namespace. -/
structure Env where
  db : DbState
  repoListOutput : CmdOutcome
  tryRepo : String → Except String Json
  helmValues : String → String → HelmValuesOutcome

/-- The part of `get_schema_for_chart` (schema/main.rs) after the cache
check's early return: discovery, the no-repositories terminal case, the
search over the candidate repositories, and the synthesis / empty-schema
fallback. `repos_to_try.len() == 1` is rendered as `rest.isEmpty` and
`repos_to_try[0]` as `r0` after matching the candidate list against
`r0 :: rest`. -/
def resolve_uncached (env : Env) (chart_name chart_version repo_name : String)
    («namespace» release_name : Option String) : (Except String Json) × DbState :=
  let discovered := get_available_repos env.repoListOutput repo_name
  let repos_to_try := if discovered.2 then [repo_name] else discovered.1
  match repos_to_try with
  | [] =>
      cache_and_return_empty_schema env.db chart_name chart_version
        "no-repos-available" «namespace»
  | r0 :: rest =>
      match try_all_repos_for_chart env.tryRepo (r0 :: rest) with
      | .ok schema =>
          match store_chart_schema env.db chart_name chart_version
              (if rest.isEmpty then repo_name else r0) «namespace» schema with
          | .error e => (.error e, env.db)
          | .ok db' => (.ok schema, db')
      | .error _ =>
          match release_name, «namespace» with
          | some rel_name, some ns =>
              match generate_schema_from_helm_values (env.helmValues rel_name ns) with
              | .ok generated_schema =>
                  match store_chart_schema env.db chart_name chart_version
                      repo_name «namespace» generated_schema with
                  | .error e => (.error e, env.db)
                  | .ok db' => (.ok generated_schema, db')
              | .error _ =>
                  cache_and_return_empty_schema env.db chart_name chart_version
                    repo_name «namespace»
          | _, _ =>
              cache_and_return_empty_schema env.db chart_name chart_version
                repo_name «namespace»

/-- Model of `get_schema_for_chart` (schema/main.rs): the cache check's
early return, then `resolve_uncached`. -/
def get_schema_for_chart (env : Env) (chart_name chart_version repo_name : String)
    («namespace» release_name : Option String) : (Except String Json) × DbState :=
  match check_cached_schema env.db chart_name chart_version repo_name with
  | some result => (result, env.db)
  | none =>
      resolve_uncached env chart_name chart_version repo_name «namespace» release_name

/-!
### Concrete scenarios

Closed environments used to evaluate the pipeline at specific inputs: each
fixes the store contents and the outcome of every external command.
-/

/-- Scenario: empty cache, one configured repository `stable` (which is the
requested one), and a network-classified failure from the search at that
repository; no release name or namespace supplied. -/
def envC1 : Env :=
  { db := { rows := [], dbError := none },
    repoListOutput := .done true "NAME URL\nstable https://charts.example.com\n" "",
    tryRepo := fun _ => .error "connection refused",
    helmValues := fun _ _ => .output none }

/-- Scenario: the store connection fails with a lock error; repository
listing unavailable. -/
def envC1w : Env :=
  { db := { rows := [], dbError := some "database is locked" },
    repoListOutput := .execError "helm not found",
    tryRepo := fun _ => .error "not found",
    helmValues := fun _ _ => .output none }

/-- Scenario: the cache holds the canonical empty schema for
`(app, 1.2.3, stable)`; everything external fails. -/
def envC2w : Env :=
  { db := { rows := [{ chart_name := "app", chart_version := "1.2.3",
                       repo_name := "stable", «namespace» := none,
                       schema_content := .wellFormed
                         (Json.obj [("properties", Json.obj []),
                                    ("type", Json.str "object")]) }],
            dbError := none },
    repoListOutput := .execError "helm not found",
    tryRepo := fun _ => .error "not found",
    helmValues := fun _ _ => .output none }

/-- The schema document served by the single discovered repository of
`envC3`. -/
def schemaC3 : Json :=
  mkObj [("type", Json.str "object"),
         ("properties", mkObj [("replicaCount",
            mkObj [("type", Json.str "integer"), ("default", Json.num 1)])])]

/-- Scenario: empty cache; the requested repository `myrepo` is not
configured and discovery finds exactly one other repository `other`, where
the search succeeds. -/
def envC3 : Env :=
  { db := { rows := [], dbError := none },
    repoListOutput := .done true "NAME URL\nother https://charts.example.com\n" "",
    tryRepo := fun r => if r == "other" then .ok schemaC3 else .error "not found",
    helmValues := fun _ _ => .output none }

/-- Scenario: the cache row for `(app, 1.2.3, stable)` holds a corrupt
(unparseable) document; everything external fails. -/
def envC5 : Env :=
  { db := { rows := [{ chart_name := "app", chart_version := "1.2.3",
                       repo_name := "stable", «namespace» := none,
                       schema_content := .corrupt }],
            dbError := none },
    repoListOutput := .execError "helm not found",
    tryRepo := fun _ => .error "not found",
    helmValues := fun _ _ => .output none }

/-- Scenario: the store connection fails on writes with a read-only error. -/
def envC5w : Env :=
  { db := { rows := [], dbError := some "attempt to write a readonly database" },
    repoListOutput := .execError "helm not found",
    tryRepo := fun _ => .error "not found",
    helmValues := fun _ _ => .output none }

/-- Per-repository search outcomes: `repoA` fails with a network-classified
message, every other repository would succeed. -/
def tryRepoC6 : String → Except String Json :=
  fun s => if s == "repoA" then .error "dial tcp: connection timed out"
           else .ok (Json.obj [("title", Json.str "b")])

/-- Scenario: empty cache and `helm repo list` exits non-zero, so no
repository is discovered and the requested one does not exist. -/
def envC7w : Env :=
  { db := { rows := [], dbError := none },
    repoListOutput := .done false "" "Error: no repositories to show",
    tryRepo := fun _ => .error "not found",
    helmValues := fun _ _ => .output none }

/-- The store state produced by writing the entry of the C9 witness into an
empty store. -/
def dbC9 : DbState :=
  { rows := [{ chart_name := "app", chart_version := "1.2.3", repo_name := "stable",
               «namespace» := some "prod",
               schema_content := .wellFormed
                 (Json.obj [("properties",
                    Json.obj [("x", Json.obj [("default", Json.num 7),
                                              ("type", Json.str "integer")])]),
                            ("type", Json.str "object")]) }],
    dbError := none }

/-!
### Auxiliary lemmas
-/

/-- Filtering by a predicate after filtering by its negation leaves nothing. -/
lemma filter_of_filter_not {α : Type} (p : α → Bool) (l : List α) :
    (l.filter fun a => !(p a)).filter p = [] := by
  induction l with
  | nil => rfl
  | cons a l ih =>
      by_cases h : p a = true <;> simp [List.filter_cons, h, ih]

/-- A row freshly written by `store_chart_schema` matches its own key. -/
lemma keyMatches_self (n v r : String) (ns : Option String) (c : StoredContent) :
    keyMatches { chart_name := n, chart_version := v, repo_name := r,
                 «namespace» := ns, schema_content := c } n v r = true := by
  simp [keyMatches]

/-- Reading back a key just written: `store_chart_schema` followed by
`get_chart_schema` on the same key returns exactly the entry written. -/
lemma store_get_roundtrip (db : DbState) (n v r : String) (ns : Option String)
    (doc : Json) (db' : DbState)
    (h : store_chart_schema db n v r ns doc = .ok db') :
    get_chart_schema db' n v r = .ok (some
      { chart_name := n, chart_version := v, repo_name := r, «namespace» := ns,
        schema_content := doc }) := by
  unfold store_chart_schema at h
  cases hdb : db.dbError with
  | some e => rw [hdb] at h; exact absurd h (by simp)
  | none =>
      rw [hdb] at h
      cases h
      unfold get_chart_schema
      simp only [hdb]
      rw [List.filter_append, filter_of_filter_not]
      simp [keyMatches_self, rowToChartSchema, List.mapM.loop]

/-- The cache check never produces an error result: `.ok()?` has discarded
any store failure, so a hit is always an `.ok` document. -/
lemma check_cached_schema_ok (db : DbState) (n v r : String) (x : Except String Json)
    (h : check_cached_schema db n v r = some x) : ∃ j, x = .ok j := by
  unfold check_cached_schema at h
  repeat' split at h
  all_goals (try cases h)
  all_goals (dsimp only at h)
  all_goals (repeat' split at h)
  all_goals (try cases h)
  all_goals exact ⟨_, rfl⟩

/-- With a failing store connection, the cache check degrades to a miss and
the first write surfaces the store failure: the whole resolution returns
that error with the store unchanged. -/
lemma error_of_dbError_some (env : Env) (n v r : String) (ns rel : Option String)
    (e : String) (h : env.db.dbError = some e) :
    get_schema_for_chart env n v r ns rel = (.error e, env.db) := by
  have hcheck : check_cached_schema env.db n v r = none := by
    unfold check_cached_schema get_chart_schema
    rw [h]
  unfold get_schema_for_chart
  rw [hcheck]
  unfold resolve_uncached
  simp only [cache_and_return_empty_schema, store_chart_schema, h]
  repeat' split
  all_goals rfl

/-- With a healthy store connection, every path of the resolution returns a
schema document, never an error. -/
lemma ok_of_dbError_none (env : Env) (n v r : String) (ns rel : Option String)
    (h : env.db.dbError = none) :
    ∃ j db2, get_schema_for_chart env n v r ns rel = (.ok j, db2) := by
  unfold get_schema_for_chart
  cases hc : check_cached_schema env.db n v r with
  | some x =>
      obtain ⟨j, rfl⟩ := check_cached_schema_ok _ _ _ _ _ hc
      exact ⟨j, env.db, rfl⟩
  | none =>
      unfold resolve_uncached
      simp only [cache_and_return_empty_schema, store_chart_schema, h]
      repeat' split
      all_goals exact ⟨_, _, rfl⟩

/-- `genFields` transforms each field's value by `genProp` and keeps keys,
so lookups commute with it. -/
lemma lookup_genFields (fields : List (String × Json)) (k : String) :
    (genFields fields).lookup k = (fields.lookup k).map genProp := by
  induction fields with
  | nil => rfl
  | cons kv rest ih =>
      obtain ⟨k', v'⟩ := kv
      by_cases h : k == k' <;> simp [genFields, List.lookup, h, ih]

/-!
### Claims
-/

/-- C1, counterexample: in `envC1` the source-search loop fails with the
network-classified error `"connection refused"`, yet `get_schema_for_chart`
does not surface it to the caller: it falls through to the cached
empty-schema fallback and returns the empty schema as a success. -/
theorem c1_counterexample :
    is_network_error "connection refused" = true ∧
    try_all_repos_for_chart envC1.tryRepo ["stable"] = .error "connection refused" ∧
    (get_schema_for_chart envC1 "mychart" "1.0.0" "stable" none none).1 =
      .ok create_empty_schema ∧
    (get_schema_for_chart envC1 "mychart" "1.0.0" "stable" none none).1 ≠
      .error "connection refused" := by
  decide

/-- C1, amended: a network-classified failure aborts the search loop and is
returned by the loop unmodified, but the orchestrator absorbs every search
failure — network-classified ones included — into the synthesis or
empty-schema fallback; the only failures that escape `get_schema_for_chart`
are store failures: the result is an error exactly when the store
connection fails, and then it is that store error. -/
theorem c1_only_store_errors_escape (env : Env)
    (chart_name chart_version repo_name : String) (ns rel : Option String)
    (e : String) :
    (get_schema_for_chart env chart_name chart_version repo_name ns rel).1 = .error e ↔
      env.db.dbError = some e := by
  constructor
  · intro h
    cases hdb : env.db.dbError with
    | none =>
        obtain ⟨j, db2, hj⟩ :=
          ok_of_dbError_none env chart_name chart_version repo_name ns rel hdb
        rw [hj] at h
        cases h
    | some e2 =>
        rw [error_of_dbError_some env chart_name chart_version repo_name ns rel e2 hdb] at h
        injection h with h2
        exact congrArg some h2
  · intro h
    rw [error_of_dbError_some env chart_name chart_version repo_name ns rel e h]

/-- C2: a cached document whose `properties` is an empty object — or which,
lacking a `properties` wrapper, is itself an empty object — is never
returned directly: the cache check reports a miss and the resolution equals
the uncached pipeline run from source discovery onward. -/
theorem c2_empty_cached_schema_retries (env : Env)
    (chart_name chart_version repo_name : String) (ns rel : Option String)
    (cs : ChartSchema)
    (hget : get_chart_schema env.db chart_name chart_version repo_name = .ok (some cs))
    (hempty : cs.schema_content.get "properties" = some (.obj []) ∨
      (cs.schema_content.get "properties" = none ∧ cs.schema_content.asObject = some [])) :
    check_cached_schema env.db chart_name chart_version repo_name = none ∧
    get_schema_for_chart env chart_name chart_version repo_name ns rel =
      resolve_uncached env chart_name chart_version repo_name ns rel := by
  have hnone : check_cached_schema env.db chart_name chart_version repo_name = none := by
    unfold check_cached_schema
    rw [hget]
    dsimp only
    rcases hempty with h1 | ⟨h1, h2⟩
    · rw [h1]
      rfl
    · rw [h1, h2]
      rfl
  refine ⟨hnone, ?_⟩
  unfold get_schema_for_chart
  rw [hnone]

/-- C2, witness: in `envC2w` the key `(app, 1.2.3, stable)` is cached with
an empty `properties` object, the check misses and the pipeline re-runs. -/
theorem c2_empty_cached_schema_retries_witness :
    get_chart_schema envC2w.db "app" "1.2.3" "stable" = .ok (some
      { chart_name := "app", chart_version := "1.2.3", repo_name := "stable",
        «namespace» := none,
        schema_content := Json.obj [("properties", Json.obj []),
                                    ("type", Json.str "object")] }) ∧
    (check_cached_schema envC2w.db "app" "1.2.3" "stable" = none ∧
     get_schema_for_chart envC2w "app" "1.2.3" "stable" none none =
       resolve_uncached envC2w "app" "1.2.3" "stable" none none) :=
  ⟨by decide,
   c2_empty_cached_schema_retries envC2w "app" "1.2.3" "stable" none none
     { chart_name := "app", chart_version := "1.2.3", repo_name := "stable",
       «namespace» := none,
       schema_content := Json.obj [("properties", Json.obj []),
                                   ("type", Json.str "object")] }
     (by decide) (.inl (by decide))⟩

/-- C3, counterexample: in `envC3` the requested source `myrepo` does not
exist and discovery finds the single candidate `other`; the search over
`[other]` succeeds, but the schema is persisted under the requested name
`myrepo`, not under `other`, the first (and only) element of the candidate
list used for the search. -/
theorem c3_counterexample :
    get_available_repos envC3.repoListOutput "myrepo" = (["other"], false) ∧
    try_all_repos_for_chart envC3.tryRepo ["other"] = .ok schemaC3 ∧
    (get_schema_for_chart envC3 "app" "1.2.3" "myrepo" none none).2.rows.map
      Row.repo_name = ["myrepo"] ∧
    "myrepo" ≠ "other" := by
  decide

/-- C3, amended: on search success the schema is persisted under
`(packageName, version, s)` and returned, where `s` is the requested source
name whenever the candidate list has exactly one element (even when that
single candidate is a different, discovered source), and the first
candidate otherwise. -/
theorem c3_amended (env : Env) (chart_name chart_version repo_name : String)
    (ns rel : Option String) (r0 : String) (rest : List String) (schema : Json)
    (hmiss : check_cached_schema env.db chart_name chart_version repo_name = none)
    (hrepos : (if (get_available_repos env.repoListOutput repo_name).2 then [repo_name]
               else (get_available_repos env.repoListOutput repo_name).1) = r0 :: rest)
    (hsearch : try_all_repos_for_chart env.tryRepo (r0 :: rest) = .ok schema)
    (hdb : env.db.dbError = none) :
    (get_schema_for_chart env chart_name chart_version repo_name ns rel).1 = .ok schema ∧
    get_chart_schema (get_schema_for_chart env chart_name chart_version repo_name ns rel).2
        chart_name chart_version (if rest.isEmpty then repo_name else r0) =
      .ok (some { chart_name := chart_name, chart_version := chart_version,
                  repo_name := if rest.isEmpty then repo_name else r0,
                  «namespace» := ns, schema_content := schema }) := by
  unfold get_schema_for_chart
  rw [hmiss]
  unfold resolve_uncached
  dsimp only
  rw [hrepos]
  dsimp only
  rw [hsearch]
  dsimp only
  cases hs : store_chart_schema env.db chart_name chart_version
      (if rest.isEmpty then repo_name else r0) ns schema with
  | error e2 =>
      unfold store_chart_schema at hs
      rw [hdb] at hs
      cases hs
  | ok db2 =>
      exact ⟨rfl, store_get_roundtrip _ _ _ _ _ _ _ hs⟩

/-- C3, witness: in `envC3` the candidate list is the singleton `[other]`,
the search succeeds, and the resolution returns that schema. -/
theorem c3_amended_witness :
    ((if (get_available_repos envC3.repoListOutput "myrepo").2 then ["myrepo"]
      else (get_available_repos envC3.repoListOutput "myrepo").1) = ["other"]) ∧
    try_all_repos_for_chart envC3.tryRepo ["other"] = .ok schemaC3 ∧
    (get_schema_for_chart envC3 "app" "1.2.3" "myrepo" none none).1 = .ok schemaC3 :=
  ⟨by decide, by decide,
   (c3_amended envC3 "app" "1.2.3" "myrepo" none none "other" [] schemaC3
     (by decide) (by decide) (by decide) rfl).1⟩

/-- C4, counterexample: synthesizing from `{"ports": [80, 443]}` derives
the item schema by the recursive call on the first element `80`, which is
not an object and therefore yields `{}` — not the claimed
`{type: integer, default: 80}`. -/
theorem c4_counterexample :
    (generate_schema_from_value (mkObj [("ports", Json.arr [Json.num 80, Json.num 443])])).get
      "ports" = some (mkObj [("type", Json.str "array"), ("items", Json.obj []),
        ("default", Json.arr [Json.num 80, Json.num 443])]) ∧
    Json.obj [] ≠ mkObj [("type", Json.str "integer"), ("default", Json.num 80)] := by
  decide

/-- C4, amended: synthesizing from `{"ports": [80, 443]}` yields
`ports:{type: array, items: {}, default: [80, 443]}` — the item schema is
the recursive synthesis of the array's first element, which is the empty
object for any non-object element — and synthesizing from `{"ports": []}`
yields `items:{type: string}`. -/
theorem c4_amended :
    generate_schema_from_value (mkObj [("ports", Json.arr [Json.num 80, Json.num 443])]) =
      mkObj [("ports", mkObj [("type", Json.str "array"), ("items", Json.obj []),
        ("default", Json.arr [Json.num 80, Json.num 443])])] ∧
    generate_schema_from_value (mkObj [("ports", Json.arr [])]) =
      mkObj [("ports", mkObj [("type", Json.str "array"),
        ("items", mkObj [("type", Json.str "string")]), ("default", Json.arr [])])] := by
  decide

/-- C5, counterexample: in `envC5` the stored document for
`(app, 1.2.3, stable)` is corrupt, so the store's get raises a StoreError —
but the cache check swallows it as a miss and the resolution succeeds with
the cached empty-schema fallback instead of surfacing the failure. -/
theorem c5_counterexample :
    get_chart_schema envC5.db "app" "1.2.3" "stable" =
      .error "Failed to collect results: Invalid column type" ∧
    check_cached_schema envC5.db "app" "1.2.3" "stable" = none ∧
    (get_schema_for_chart envC5 "app" "1.2.3" "stable" none none).1 =
      .ok create_empty_schema := by
  decide

/-- C5, amended: a StoreError of the store connection itself is surfaced to
the caller unretried (every resolution path ends in a cache write, which
propagates the failure); but the StoreError that get raises on a corrupt
stored document during the cache check is swallowed by `.ok()` and degrades
into the fallback pipeline. -/
theorem c5_write_store_error_surfaced (env : Env)
    (chart_name chart_version repo_name : String) (ns rel : Option String)
    (e : String) (h : env.db.dbError = some e) :
    (get_schema_for_chart env chart_name chart_version repo_name ns rel).1 = .error e := by
  rw [error_of_dbError_some env chart_name chart_version repo_name ns rel e h]

/-- C5, witness: a failing store connection surfaces its error. -/
theorem c5_write_store_error_surfaced_witness :
    envC5w.db.dbError = some "attempt to write a readonly database" ∧
    (get_schema_for_chart envC5w "app" "1.2.3" "stable" none none).1 =
      .error "attempt to write a readonly database" :=
  ⟨rfl, c5_write_store_error_surfaced envC5w "app" "1.2.3" "stable" none none _ rfl⟩

/-- C6: when the first candidate fails with an error whose message is
network-classified (contains a timeout, network, or connection substring),
the search loop returns that error immediately and attempts no further
candidate. -/
theorem c6_network_error_short_circuits (try_repo : String → Except String Json)
    (a b c e : String) (hA : try_repo a = .error e)
    (hnet : is_network_error e = true) :
    try_all_repos_for_chart try_repo [a, b, c] = .error e ∧
    try_all_repos_attempted try_repo [a, b, c] = [a] := by
  simp [try_all_repos_for_chart, try_all_repos_attempted, try_all_repos_go, hA, hnet]

/-- C6, witness: `repoA` fails with a connection error; `repoB` and `repoC`
are never attempted. -/
theorem c6_network_error_short_circuits_witness :
    tryRepoC6 "repoA" = .error "dial tcp: connection timed out" ∧
    is_network_error "dial tcp: connection timed out" = true ∧
    (try_all_repos_for_chart tryRepoC6 ["repoA", "repoB", "repoC"] =
       .error "dial tcp: connection timed out" ∧
     try_all_repos_attempted tryRepoC6 ["repoA", "repoB", "repoC"] = ["repoA"]) :=
  ⟨by decide, by decide,
   c6_network_error_short_circuits tryRepoC6 "repoA" "repoB" "repoC" _
     (by decide) (by decide)⟩

/-- C7: when the cache misses, the candidate source set is empty (nothing
discovered and the requested source does not exist) and the store is
healthy, the resolution persists the canonical empty schema under the
sentinel source `no-repos-available` and returns it as a success. -/
theorem c7_no_repos_returns_empty_schema (env : Env)
    (chart_name chart_version repo_name : String) (ns rel : Option String)
    (hmiss : check_cached_schema env.db chart_name chart_version repo_name = none)
    (hrepos : get_available_repos env.repoListOutput repo_name = ([], false))
    (hdb : env.db.dbError = none) :
    (get_schema_for_chart env chart_name chart_version repo_name ns rel).1 =
      .ok create_empty_schema ∧
    get_chart_schema (get_schema_for_chart env chart_name chart_version repo_name ns rel).2
        chart_name chart_version "no-repos-available" =
      .ok (some { chart_name := chart_name, chart_version := chart_version,
                  repo_name := "no-repos-available", «namespace» := ns,
                  schema_content := create_empty_schema }) := by
  unfold get_schema_for_chart
  rw [hmiss]
  unfold resolve_uncached
  dsimp only
  rw [hrepos]
  dsimp only
  rw [show (if (false : Bool) = true then [repo_name] else ([] : List String)) = []
    from rfl]
  dsimp only
  unfold cache_and_return_empty_schema
  cases hs : store_chart_schema env.db chart_name chart_version "no-repos-available" ns
      create_empty_schema with
  | error e2 =>
      unfold store_chart_schema at hs
      rw [hdb] at hs
      cases hs
  | ok db2 =>
      exact ⟨rfl, store_get_roundtrip _ _ _ _ _ _ _ hs⟩

/-- C7, witness: with no repository configured, resolving returns the
canonical empty schema as a success. -/
theorem c7_no_repos_returns_empty_schema_witness :
    check_cached_schema envC7w.db "app" "1.2.3" "stable" = none ∧
    get_available_repos envC7w.repoListOutput "stable" = ([], false) ∧
    (get_schema_for_chart envC7w "app" "1.2.3" "stable" none none).1 =
      .ok create_empty_schema :=
  ⟨by decide, by decide,
   (c7_no_repos_returns_empty_schema envC7w "app" "1.2.3" "stable" none none
     (by decide) (by decide) rfl).1⟩

/-- C8: synthesizing from `{"replicas": 3, "enabled": true, "name": "x"}`
yields `replicas:{type: integer, default: 3}`,
`enabled:{type: boolean, default: true}`,
`name:{type: string, default: "x"}`; and every null-valued input property
maps to `{type: "string", default: null}`, not a `"null"` type. -/
theorem c8_scalar_and_null_inference :
    generate_schema_from_value (mkObj [("replicas", Json.num 3),
        ("enabled", Json.bool true), ("name", Json.str "x")]) =
      mkObj [("replicas", mkObj [("type", Json.str "integer"), ("default", Json.num 3)]),
             ("enabled", mkObj [("type", Json.str "boolean"), ("default", Json.bool true)]),
             ("name", mkObj [("type", Json.str "string"), ("default", Json.str "x")])] ∧
    ∀ (fields : List (String × Json)) (k : String),
      (Json.obj fields).get k = some .null →
      (generate_schema_from_value (.obj fields)).get k =
        some (mkObj [("type", Json.str "string"), ("default", Json.null)]) := by
  constructor
  · decide
  · intro fields k h
    simp only [Json.get, generate_schema_from_value] at h ⊢
    rw [lookup_genFields, h]
    rfl

/-- C8, witness: a null-valued property synthesizes to
`{type: string, default: null}`. -/
theorem c8_scalar_and_null_inference_witness :
    (Json.obj [("legacy", Json.null)]).get "legacy" = some Json.null ∧
    (generate_schema_from_value (Json.obj [("legacy", Json.null)])).get "legacy" =
      some (mkObj [("type", Json.str "string"), ("default", Json.null)]) :=
  ⟨by decide, c8_scalar_and_null_inference.2 [("legacy", Json.null)] "legacy" (by decide)⟩

/-- C9: writing an entry with `store_chart_schema` and reading it back with
`get_chart_schema` under the same `(package, version, source)` key returns
an entry whose schema document equals the document written. -/
theorem c9_put_get_roundtrip (db : DbState)
    (chart_name chart_version repo_name : String) (ns : Option String)
    (doc : Json) (db2 : DbState)
    (h : store_chart_schema db chart_name chart_version repo_name ns doc = .ok db2) :
    get_chart_schema db2 chart_name chart_version repo_name =
      .ok (some { chart_name := chart_name, chart_version := chart_version,
                  repo_name := repo_name, «namespace» := ns,
                  schema_content := doc }) :=
  store_get_roundtrip db chart_name chart_version repo_name ns doc db2 h

/-- C9, witness: a concrete write into an empty store reads back as
written. -/
theorem c9_put_get_roundtrip_witness :
    store_chart_schema { rows := [], dbError := none } "app" "1.2.3" "stable"
      (some "prod")
      (Json.obj [("properties", Json.obj [("x", Json.obj [("default", Json.num 7),
          ("type", Json.str "integer")])]), ("type", Json.str "object")]) = .ok dbC9 ∧
    get_chart_schema dbC9 "app" "1.2.3" "stable" =
      .ok (some { chart_name := "app", chart_version := "1.2.3",
                  repo_name := "stable", «namespace» := some "prod",
                  schema_content := Json.obj [("properties",
                    Json.obj [("x", Json.obj [("default", Json.num 7),
                      ("type", Json.str "integer")])]),
                    ("type", Json.str "object")] }) :=
  ⟨by decide,
   c9_put_get_roundtrip { rows := [], dbError := none } "app" "1.2.3" "stable"
     (some "prod") _ dbC9 (by decide)⟩

/-- C10: when the live-values output parses as JSON whose top-level value
is not an object, synthesis succeeds and returns exactly the canonical
empty schema `{"type": "object", "properties": {}}`. -/
theorem c10_non_object_values_give_empty_schema (v : Json)
    (h : v.asObject = none) :
    generate_schema_from_helm_values (.output (some v)) = .ok create_empty_schema := by
  cases v with
  | obj fields => exact absurd h (by simp [Json.asObject])
  | null => rfl
  | bool b => rfl
  | num n => rfl
  | str s => rfl
  | arr items => rfl

/-- C10, witness: a top-level array synthesizes to the canonical empty
schema. -/
theorem c10_non_object_values_give_empty_schema_witness :
    (Json.arr [Json.num 1]).asObject = none ∧
    generate_schema_from_helm_values (.output (some (Json.arr [Json.num 1]))) =
      .ok create_empty_schema :=
  ⟨rfl, c10_non_object_values_give_empty_schema (Json.arr [Json.num 1]) rfl⟩

end Rudder
